import Mathlib

/-!
Shallow embedding of the Arduino remregs register bank
(src/remregs.cpp together with its header remregs.h).

Modelling choices:
* serial input is a list of pending bytes; a read from an empty list is a
  timeout (read_byte then yields the sentinel 0xff and raises the timeout
  flag, exactly as the C function does);
* serial output is the list of bytes written during one invocation;
* the shared RegisterData union is a byte store indexed by Nat
  (offset 0 is multibyte.size, offsets 1.. are multibyte.data, mirroring
  the memory layout of the union), so that stores past the declared
  30-byte extent remain observable;
* callbacks are pure functions from (operation, address, data) to
  (handled?, new data); each invocation of a callback is recorded in a
  trace entry holding the slot index, the arguments passed and the
  returned flag, so that dispatch order is a provable notion;
* the uint8_t parameter types of callbacks_call_one / callbacks_call_all
  are modelled by reducing the arguments modulo 256 at the call sites,
  as the C implicit conversion does.
-/

/-- sync_state value: no sync with client (SYNC_NONE in remregs.cpp). -/
def SYNC_NONE : Nat := 0

/-- sync_state value: successfully synchronized (SYNC_OK). -/
def SYNC_OK : Nat := 1

/-- sync_state value: synchronized with checksums (SYNC_CHECKSUM). -/
def SYNC_CHECKSUM : Nat := 2

/-- acknowledge byte (ACK in remregs.cpp: 6). -/
def ACK : Nat := 6

/-- negative-acknowledge byte as defined in remregs.cpp: decimal 15. -/
def NAK : Nat := 15

/-- maximal size of a multibyte register (MAX_MB_SIZE in remregs.h). -/
def MAX_MB_SIZE : Nat := 29

/-- number of callback slots (MAX_REG_CALLBACKS in remregs.h). -/
def MAX_REG_CALLBACKS : Nat := 16

/-- operation code: 8-bit read. -/
def ROP_READ_8 : Nat := 0

/-- operation code: 16-bit read. -/
def ROP_READ_16 : Nat := 1

/-- operation code: 32-bit read. -/
def ROP_READ_32 : Nat := 2

/-- operation code: multibyte read. -/
def ROP_READ_MB : Nat := 3

/-- operation code: 8-bit write. -/
def ROP_WRITE_8 : Nat := 4

/-- operation code: 16-bit write. -/
def ROP_WRITE_16 : Nat := 5

/-- operation code: 32-bit write. -/
def ROP_WRITE_32 : Nat := 6

/-- operation code: multibyte write. -/
def ROP_WRITE_MB : Nat := 7

/-- the RegisterData union of remregs.h, seen as its underlying byte
store: offset 0 is multibyte.size, offset 1 + i is multibyte.data[i],
and bytes[i] is offset i.  The store is total over Nat so that stores
past the declared 30-byte extent stay visible to theorems. -/
structure RegisterData where
  bytes : Nat → Nat

/-- store one byte at a given offset of the RegisterData store. -/
def RegisterData.set (rd : RegisterData) (i v : Nat) : RegisterData :=
  ⟨fun j => if j = i then v else rd.bytes j⟩

/-- register_callback_t of remregs.h: a handler receiving the operation,
the (8-bit) address and the shared data, returning whether it handled the
operation together with the possibly mutated data. -/
def Callback := Nat → Nat → RegisterData → Bool × RegisterData

/-- one recorded callback invocation: which slot was called, the
operation and address arguments it received, and the flag it returned. -/
structure CallEvent where
  slot : Nat
  oper : Nat
  addr : Nat
  ret : Bool
deriving DecidableEq, Repr

/-- the state of a RegisterBank object: sync_state, the 16 callback
slots, the shared regdata2 buffer, and the timeout flag. -/
structure RegisterBank where
  sync_state : Nat
  callbacks : List (Option Callback)
  regdata2 : RegisterData
  timeout : Bool

/-- result of one event_handler invocation: the new object state, the
input bytes left unconsumed, the bytes written to the port, and the
trace of callback invocations. -/
structure EvResult where
  bank : RegisterBank
  rest : List Nat
  out : List Nat
  trace : List CallEvent

/-- RegisterBank::desync: if forced or currently synchronized, write
MAX_MB_SIZE + 5 bytes of value 0xff; in every case reset sync_state to
SYNC_NONE.  Returns the new state and the bytes written. -/
def desync (force : Bool) (bk : RegisterBank) : RegisterBank × List Nat :=
  (⟨SYNC_NONE, bk.callbacks, bk.regdata2, bk.timeout⟩,
   if force = true ∨ bk.sync_state ≠ SYNC_NONE then
     List.replicate (MAX_MB_SIZE + 5) 0xff
   else [])

/-- the RegisterBank constructor: clears all callback slots, starts
unsynchronized with the timeout flag clear, and performs a forced desync
(the initial contents of regdata2 are indeterminate in the C++ object,
hence the parameter). -/
def RegisterBank.construct (rd : RegisterData) : RegisterBank × List Nat :=
  desync true ⟨SYNC_NONE, List.replicate MAX_REG_CALLBACKS none, rd, false⟩

/-- helper for occupiedSlots, carrying the index of the first slot. -/
def occupiedAux (slot : Nat) : List (Option Callback) → List Nat
  | [] => []
  | none :: rest => occupiedAux (slot + 1) rest
  | some _ :: rest => slot :: occupiedAux (slot + 1) rest

/-- the indices of the occupied callback slots, in increasing order. -/
def occupiedSlots (cbs : List (Option Callback)) : List Nat :=
  occupiedAux 0 cbs

/-- helper for callbacks_call_one, carrying the index of the first slot:
scans the slots in order, invokes each occupied one until the first that
returns true, and records each invocation. -/
def callOneAux (slot : Nat) (cbs : List (Option Callback)) (oper addr : Nat)
    (rd : RegisterData) : Bool × RegisterData × List CallEvent :=
  match cbs with
  | [] => (false, rd, [])
  | none :: rest => callOneAux (slot + 1) rest oper addr rd
  | some cb :: rest =>
    let r := cb oper addr rd
    if r.1 then (true, r.2, [⟨slot, oper, addr, true⟩])
    else
      let t := callOneAux (slot + 1) rest oper addr r.2
      (t.1, t.2.1, ⟨slot, oper, addr, false⟩ :: t.2.2)

/-- RegisterBank::callbacks_call_one: call the callback functions in
slot order until one succeeds; also returns the invocation trace. -/
def callbacks_call_one (oper addr : Nat) (cbs : List (Option Callback))
    (rd : RegisterData) : Bool × RegisterData × List CallEvent :=
  callOneAux 0 cbs oper addr rd

/-- helper for callbacks_call_all, carrying the index of the first slot:
invokes every occupied slot in order, ignoring the returned flags. -/
def callAllAux (slot : Nat) (cbs : List (Option Callback)) (oper addr : Nat)
    (rd : RegisterData) : RegisterData × List CallEvent :=
  match cbs with
  | [] => (rd, [])
  | none :: rest => callAllAux (slot + 1) rest oper addr rd
  | some cb :: rest =>
    let r := cb oper addr rd
    let t := callAllAux (slot + 1) rest oper addr r.2
    (t.1, ⟨slot, oper, addr, r.1⟩ :: t.2)

/-- RegisterBank::callbacks_call_all: call all the callback functions
(in slot order); also returns the invocation trace. -/
def callbacks_call_all (oper addr : Nat) (cbs : List (Option Callback))
    (rd : RegisterData) : RegisterData × List CallEvent :=
  callAllAux 0 cbs oper addr rd

/-- the loop reading cnt request bytes into the data buffer starting at
a given offset (offset 0 for the scalar operations, offset 1 — the
multibyte data area — for multibyte writes).  Each received byte is
stored; when the input runs out, read_byte returns the 0xff sentinel,
which the loop body stores before noticing the timeout, exactly as in
the C code.  Returns (timed out?, new data, remaining input). -/
def readLoop (base cnt : Nat) (input : List Nat) (rd : RegisterData) :
    Bool × RegisterData × List Nat :=
  match cnt, input with
  | 0, _ => (false, rd, input)
  | _ + 1, [] => (true, rd.set base 0xff, [])
  | n + 1, b :: input' => readLoop (base + 1) n input' (rd.set base (b % 256))

/-- reply phase of a read operation: run callbacks_call_one on the
8-bit-truncated address, then write either ACK followed by the first
cnt buffer bytes, or the single NAK byte.  cnt is computed from the
buffer state after the call (for multibyte reads it is size + 1). -/
def readReply (bk : RegisterBank) (op addr : Nat) (cntOf : RegisterData → Nat)
    (input : List Nat) : EvResult :=
  let t := callbacks_call_one op (addr % 256) bk.callbacks bk.regdata2
  ⟨⟨bk.sync_state, bk.callbacks, t.2.1, false⟩, input,
   if t.1 then
     ACK :: (List.range (cntOf t.2.1)).map (fun i => t.2.1.bytes i % 256)
   else [NAK],
   t.2.2⟩

/-- the second switch of event_handler together with the reply code:
dispatch the decoded operation to the callbacks and write the reply. -/
def dispatch (bk : RegisterBank) (op addr : Nat) (input : List Nat) : EvResult :=
  if op = ROP_READ_8 then readReply bk op addr (fun _ => 1) input
  else if op = ROP_READ_16 then readReply bk op addr (fun _ => 2) input
  else if op = ROP_READ_32 then readReply bk op addr (fun _ => 4) input
  else if op = ROP_READ_MB then
    readReply bk op addr (fun rd => (rd.bytes 0 % 256 + 1) % 256) input
  else if op = ROP_WRITE_8 ∨ op = ROP_WRITE_16 ∨ op = ROP_WRITE_32 ∨
          op = ROP_WRITE_MB then
    let t := callbacks_call_all op (addr % 256) bk.callbacks bk.regdata2
    ⟨⟨bk.sync_state, bk.callbacks, t.1, false⟩, input, [ACK], t.2⟩
  else ⟨⟨bk.sync_state, bk.callbacks, bk.regdata2, false⟩, input, [ACK], []⟩

/-- frame phase after the payload length is known: read cnt payload
bytes (desyncing on timeout) and then dispatch. -/
def afterHeader (bk : RegisterBank) (op addr cnt base : Nat)
    (input : List Nat) : EvResult :=
  let t := readLoop base cnt input bk.regdata2
  if t.1 then
    let d := desync false ⟨bk.sync_state, bk.callbacks, t.2.1, true⟩
    ⟨d.1, t.2.2, d.2, []⟩
  else dispatch ⟨bk.sync_state, bk.callbacks, t.2.1, bk.timeout⟩ op addr t.2.2

/-- the first switch of event_handler: compute how many request bytes
to read for the decoded operation; a multibyte write first reads the
length byte (desyncing on its timeout) and stores it in the size field
of the buffer. -/
def headerBody (bk : RegisterBank) (op addr : Nat) (input : List Nat) : EvResult :=
  if op = ROP_WRITE_8 then afterHeader bk op addr 1 0 input
  else if op = ROP_WRITE_16 then afterHeader bk op addr 2 0 input
  else if op = ROP_WRITE_32 then afterHeader bk op addr 4 0 input
  else if op = ROP_WRITE_MB then
    match input with
    | [] =>
      let d := desync false ⟨bk.sync_state, bk.callbacks, bk.regdata2, true⟩
      ⟨d.1, [], d.2, []⟩
    | l :: input' =>
      afterHeader ⟨bk.sync_state, bk.callbacks,
                   bk.regdata2.set 0 (l % 256), false⟩
        op addr (l % 256) 1 input'
  else afterHeader bk op addr 0 0 input

/-- continuation of event_handler once the first byte b1 has been read
in a synchronized state: read the second header byte (desyncing on its
timeout or on the 0xff 0xff resync pattern), decode operation and
address, and run the body. -/
def afterFirst (bk : RegisterBank) (b1 : Nat) (in1 : List Nat) : EvResult :=
  match in1 with
  | [] =>
    let d := desync false ⟨bk.sync_state, bk.callbacks, bk.regdata2, true⟩
    ⟨d.1, [], d.2, []⟩
  | c2 :: in2 =>
    let b2 := c2 % 256
    if b1 = 0xff ∧ b2 = 0xff then
      let d := desync false ⟨bk.sync_state, bk.callbacks, bk.regdata2, false⟩
      ⟨d.1, in2, d.2, []⟩
    else
      headerBody ⟨bk.sync_state, bk.callbacks, bk.regdata2, false⟩
        (b1 / 4) ((b1 % 4) * 256 + b2) in2

/-- RegisterBank::event_handler on a given pending-input list: returns
immediately when no byte is available; otherwise reads the first byte
and either treats it as a sync byte (when unsynchronized) or processes
one request frame. -/
def event_handler (bk : RegisterBank) (input : List Nat) : EvResult :=
  match input with
  | [] => ⟨bk, [], [], []⟩
  | c1 :: in1 =>
    let b1 := c1 % 256
    if bk.sync_state = SYNC_NONE then
      if b1 = 0xaa then
        ⟨⟨SYNC_OK, bk.callbacks, bk.regdata2, false⟩, in1, [0x55], []⟩
      else if b1 = 0xa5 then
        ⟨⟨SYNC_CHECKSUM, bk.callbacks, bk.regdata2, false⟩, in1, [0x55], []⟩
      else ⟨⟨SYNC_NONE, bk.callbacks, bk.regdata2, false⟩, in1, [], []⟩
    else
      afterFirst ⟨bk.sync_state, bk.callbacks, bk.regdata2, false⟩ b1 in1

/-! Helper lemmas about the callback registry and the read loop. -/

theorem readLoop_complete (payload : List Nat) :
    ∀ (base : Nat) (rest : List Nat) (rd : RegisterData),
    ∃ rd', readLoop base payload.length (payload ++ rest) rd = (false, rd', rest) := by
  induction payload with
  | nil => intro base rest rd; exact ⟨rd, rfl⟩
  | cons b tl ih =>
    intro base rest rd
    simpa [readLoop] using ih (base + 1) rest (rd.set base (b % 256))

theorem callAllAux_slots (cbs : List (Option Callback)) :
    ∀ (slot oper addr : Nat) (rd : RegisterData),
    ((callAllAux slot cbs oper addr rd).2).map CallEvent.slot = occupiedAux slot cbs := by
  induction cbs with
  | nil => intro slot oper addr rd; rfl
  | cons hd tl ih =>
    intro slot oper addr rd
    cases hd with
    | none => simpa [callAllAux, occupiedAux] using ih (slot + 1) oper addr rd
    | some cb =>
      simpa [callAllAux, occupiedAux] using
        ih (slot + 1) oper addr (cb oper addr rd).2

theorem callAllAux_args (cbs : List (Option Callback)) :
    ∀ (slot oper addr : Nat) (rd : RegisterData),
    ∀ e ∈ (callAllAux slot cbs oper addr rd).2, e.oper = oper ∧ e.addr = addr := by
  induction cbs with
  | nil => intro slot oper addr rd e he; simp [callAllAux] at he
  | cons hd tl ih =>
    intro slot oper addr rd e he
    cases hd with
    | none => exact ih (slot + 1) oper addr rd e (by simpa [callAllAux] using he)
    | some cb =>
      simp only [callAllAux, List.mem_cons] at he
      rcases he with rfl | he
      · exact ⟨rfl, rfl⟩
      · exact ih (slot + 1) oper addr (cb oper addr rd).2 e he

theorem callOneAux_args (cbs : List (Option Callback)) :
    ∀ (slot oper addr : Nat) (rd : RegisterData),
    ∀ e ∈ (callOneAux slot cbs oper addr rd).2.2, e.oper = oper ∧ e.addr = addr := by
  induction cbs with
  | nil => intro slot oper addr rd e he; simp [callOneAux] at he
  | cons hd tl ih =>
    intro slot oper addr rd e he
    cases hd with
    | none => exact ih (slot + 1) oper addr rd e (by simpa [callOneAux] using he)
    | some cb =>
      by_cases h : (cb oper addr rd).1
      · simp only [callOneAux, h, if_pos, List.mem_singleton] at he
        subst he; exact ⟨rfl, rfl⟩
      · simp [callOneAux, h, List.mem_cons] at he
        rcases he with rfl | he
        · exact ⟨rfl, rfl⟩
        · exact ih (slot + 1) oper addr (cb oper addr rd).2 e he

theorem callOneAux_slots_take (cbs : List (Option Callback)) :
    ∀ (slot oper addr : Nat) (rd : RegisterData),
    ((callOneAux slot cbs oper addr rd).2.2).map CallEvent.slot =
      (occupiedAux slot cbs).take ((callOneAux slot cbs oper addr rd).2.2).length := by
  induction cbs with
  | nil => intro slot oper addr rd; rfl
  | cons hd tl ih =>
    intro slot oper addr rd
    cases hd with
    | none => simpa [callOneAux, occupiedAux] using ih (slot + 1) oper addr rd
    | some cb =>
      by_cases h : (cb oper addr rd).1
      · simp [callOneAux, h, occupiedAux]
      · simpa [callOneAux, h, occupiedAux] using
          ih (slot + 1) oper addr (cb oper addr rd).2

theorem callOneAux_false (cbs : List (Option Callback)) :
    ∀ (slot oper addr : Nat) (rd : RegisterData),
    (callOneAux slot cbs oper addr rd).1 = false →
    ((callOneAux slot cbs oper addr rd).2.2).map CallEvent.slot = occupiedAux slot cbs ∧
    ∀ e ∈ (callOneAux slot cbs oper addr rd).2.2, e.ret = false := by
  induction cbs with
  | nil => intro slot oper addr rd _; exact ⟨rfl, by simp [callOneAux]⟩
  | cons hd tl ih =>
    intro slot oper addr rd hres
    cases hd with
    | none =>
      simpa [callOneAux, occupiedAux] using
        ih (slot + 1) oper addr rd (by simpa [callOneAux] using hres)
    | some cb =>
      by_cases h : (cb oper addr rd).1
      · simp [callOneAux, h] at hres
      · have hres' : (callOneAux (slot + 1) tl oper addr (cb oper addr rd).2).1 = false := by
          simpa [callOneAux, h] using hres
        have := ih (slot + 1) oper addr (cb oper addr rd).2 hres'
        refine ⟨by simpa [callOneAux, h, occupiedAux] using this.1, ?_⟩
        intro e he
        simp [callOneAux, h, List.mem_cons] at he
        rcases he with rfl | he
        · rfl
        · exact this.2 e he

theorem callOneAux_true (cbs : List (Option Callback)) :
    ∀ (slot oper addr : Nat) (rd : RegisterData),
    (callOneAux slot cbs oper addr rd).1 = true →
    ∃ pre last, (callOneAux slot cbs oper addr rd).2.2 = pre ++ [last] ∧
      last.ret = true ∧ ∀ e ∈ pre, e.ret = false := by
  induction cbs with
  | nil => intro slot oper addr rd hres; simp [callOneAux] at hres
  | cons hd tl ih =>
    intro slot oper addr rd hres
    cases hd with
    | none =>
      simpa [callOneAux] using
        ih (slot + 1) oper addr rd (by simpa [callOneAux] using hres)
    | some cb =>
      by_cases h : (cb oper addr rd).1
      · exact ⟨[], ⟨slot, oper, addr, true⟩, by simp [callOneAux, h], rfl, by simp⟩
      · have hres' : (callOneAux (slot + 1) tl oper addr (cb oper addr rd).2).1 = true := by
          simpa [callOneAux, h] using hres
        obtain ⟨pre, last, heq, hlast, hpre⟩ := ih (slot + 1) oper addr (cb oper addr rd).2 hres'
        refine ⟨⟨slot, oper, addr, false⟩ :: pre, last, ?_, hlast, ?_⟩
        · simp [callOneAux, h, heq]
        · intro e he
          rcases List.mem_cons.mp he with rfl | he
          · rfl
          · exact hpre e he

theorem callOneAux_all_false (cbs : List (Option Callback)) :
    ∀ (slot oper addr : Nat) (rd : RegisterData),
    (∀ ocb ∈ cbs, ∀ cb : Callback, ocb = some cb →
      ∀ (o a : Nat) (x : RegisterData), (cb o a x).1 = false) →
    (callOneAux slot cbs oper addr rd).1 = false := by
  induction cbs with
  | nil => intro slot oper addr rd _; rfl
  | cons hd tl ih =>
    intro slot oper addr rd hall
    cases hd with
    | none =>
      simpa [callOneAux] using
        ih (slot + 1) oper addr rd (fun ocb hm => hall ocb (List.mem_cons_of_mem _ hm))
    | some cb =>
      have hf : (cb oper addr rd).1 = false :=
        hall (some cb) (List.mem_cons_self _ _) cb rfl oper addr rd
      simpa [callOneAux, hf] using
        ih (slot + 1) oper addr (cb oper addr rd).2
          (fun ocb hm => hall ocb (List.mem_cons_of_mem _ hm))

/-! Concrete objects used by witnesses and counterexamples. -/

/-- a callback that never handles anything (always returns false). -/
def cbAllFalse : Callback := fun _ _ rd => (false, rd)

/-- a callback that handles everything (always returns true). -/
def cbAllTrue : Callback := fun _ _ rd => (true, rd)

/-- an all-zero data buffer. -/
def rdZero : RegisterData := ⟨fun _ => 0⟩

/-- a synchronized bank whose single registered callback never handles
any operation. -/
def bankNak : RegisterBank :=
  ⟨SYNC_OK, some cbAllFalse :: List.replicate 15 none, rdZero, false⟩

/-- a synchronized bank whose single registered callback handles every
operation. -/
def bankFirstTrue : RegisterBank :=
  ⟨SYNC_OK, some cbAllTrue :: List.replicate 15 none, rdZero, false⟩

/-- a synchronized bank with no registered callbacks. -/
def bankNoCb : RegisterBank :=
  ⟨SYNC_OK, List.replicate 16 none, rdZero, false⟩

/-- a registry with a refusing callback, an empty slot, and an accepting
callback, exercising the first-match scan. -/
def cbsMixed : List (Option Callback) :=
  [some cbAllFalse, none, some cbAllTrue, some cbAllFalse]

/-! Claim theorems. -/

/-- C5: while the state is Unsynced, receiving 0xAA moves to Synced and
writes the single byte 0x55; receiving 0xA5 moves to SyncedWithChecksum
and writes 0x55; any other byte leaves the state Unsynced and writes
nothing; in all three cases no further input byte is consumed. -/
theorem C5_sync_transitions (cbs : List (Option Callback)) (rd : RegisterData)
    (t : Bool) (rest : List Nat) :
    event_handler ⟨SYNC_NONE, cbs, rd, t⟩ (0xaa :: rest) =
      ⟨⟨SYNC_OK, cbs, rd, false⟩, rest, [0x55], []⟩ ∧
    event_handler ⟨SYNC_NONE, cbs, rd, t⟩ (0xa5 :: rest) =
      ⟨⟨SYNC_CHECKSUM, cbs, rd, false⟩, rest, [0x55], []⟩ ∧
    ∀ b : Nat, b % 256 ≠ 0xaa → b % 256 ≠ 0xa5 →
      event_handler ⟨SYNC_NONE, cbs, rd, t⟩ (b :: rest) =
        ⟨⟨SYNC_NONE, cbs, rd, false⟩, rest, [], []⟩ := by
  refine ⟨rfl, rfl, ?_⟩
  intro b hb1 hb2
  simp [event_handler, SYNC_NONE, hb1, hb2]

/-- witness for C5 at the concrete byte 0x00. -/
theorem C5_sync_transitions_witness :
    event_handler ⟨SYNC_NONE, [], rdZero, false⟩ [0] =
      ⟨⟨SYNC_NONE, [], rdZero, false⟩, [], [], []⟩ :=
  (C5_sync_transitions [] rdZero false []).2.2 0 (by decide) (by decide)

/-- C8: a forced desync, or a desync from a synced state, writes exactly
MAX_MB_SIZE + 5 = 34 bytes of value 0xFF and resets the state to
Unsynced; a non-forced desync while already Unsynced writes nothing; the
constructor performs a forced desync burst. -/
theorem C8_desync_burst (bk : RegisterBank) (rd : RegisterData) :
    MAX_MB_SIZE + 5 = 34 ∧
    (desync true bk).2 = List.replicate (MAX_MB_SIZE + 5) 0xff ∧
    (desync true bk).1.sync_state = SYNC_NONE ∧
    (bk.sync_state ≠ SYNC_NONE →
      (desync false bk).2 = List.replicate (MAX_MB_SIZE + 5) 0xff) ∧
    (desync false bk).1.sync_state = SYNC_NONE ∧
    (bk.sync_state = SYNC_NONE → (desync false bk).2 = []) ∧
    (RegisterBank.construct rd).2 = List.replicate (MAX_MB_SIZE + 5) 0xff := by
  refine ⟨rfl, by simp [desync], rfl, ?_, rfl, ?_, by simp [RegisterBank.construct, desync]⟩
  · intro h; simp [desync, h]
  · intro h; simp [desync, h]

/-- witness for C8 at a concrete synced bank. -/
theorem C8_desync_burst_witness :
    (desync false bankNoCb).2 = List.replicate (MAX_MB_SIZE + 5) 0xff ∧
    (desync false ⟨SYNC_NONE, [], rdZero, false⟩).2 = [] :=
  ⟨(C8_desync_burst bankNoCb rdZero).2.2.2.1 (by decide),
   (C8_desync_burst ⟨SYNC_NONE, [], rdZero, false⟩ rdZero).2.2.2.2.2.1 rfl⟩

/-- C9: from the Synced state, processing the resync pattern 0xFF 0xFF
once leaves the state Unsynced, and processing it a second time (which
takes two polling cycles, one byte each, since the handler is then
unsynchronized) leaves the state Unsynced as well: the resync signal is
idempotent on the sync state. -/
theorem C9_resync_idempotent (cbs : List (Option Callback)) (rd : RegisterData)
    (t : Bool) :
    (event_handler ⟨SYNC_OK, cbs, rd, t⟩ [0xff, 0xff]).bank.sync_state = SYNC_NONE ∧
    (event_handler ⟨SYNC_OK, cbs, rd, t⟩ [0xff, 0xff]).rest = [] ∧
    (let r1 := event_handler ⟨SYNC_OK, cbs, rd, t⟩ [0xff, 0xff]
     let r2 := event_handler r1.bank [0xff, 0xff]
     let r3 := event_handler r2.bank r2.rest
     r2.bank.sync_state = SYNC_NONE ∧ r3.bank.sync_state = SYNC_NONE ∧
     r3.rest = []) :=
  ⟨rfl, rfl, rfl, rfl, rfl⟩

/-- C6: callbacks_call_one visits the occupied slots in slot order (its
trace is an initial segment of the occupied-slot list); when it returns
false it has visited every occupied slot and every visited callback
returned false; when it returns true the last visited callback returned
true and all earlier ones returned false, so iteration stopped at the
first success. -/
theorem C6_first_match (cbs : List (Option Callback)) (oper addr : Nat)
    (rd : RegisterData) :
    (((callbacks_call_one oper addr cbs rd).2.2).map CallEvent.slot =
      (occupiedSlots cbs).take ((callbacks_call_one oper addr cbs rd).2.2).length) ∧
    ((callbacks_call_one oper addr cbs rd).1 = false →
      ((callbacks_call_one oper addr cbs rd).2.2).map CallEvent.slot =
        occupiedSlots cbs ∧
      ∀ e ∈ (callbacks_call_one oper addr cbs rd).2.2, e.ret = false) ∧
    ((callbacks_call_one oper addr cbs rd).1 = true →
      ∃ pre last, (callbacks_call_one oper addr cbs rd).2.2 = pre ++ [last] ∧
        last.ret = true ∧ ∀ e ∈ pre, e.ret = false) :=
  ⟨callOneAux_slots_take cbs 0 oper addr rd,
   callOneAux_false cbs 0 oper addr rd,
   callOneAux_true cbs 0 oper addr rd⟩

/-- witness for C6 on a concrete mixed registry where slot 2 is the
first to succeed. -/
theorem C6_first_match_witness :
    (((callbacks_call_one 3 9 cbsMixed rdZero).2.2).map CallEvent.slot =
      (occupiedSlots cbsMixed).take
        ((callbacks_call_one 3 9 cbsMixed rdZero).2.2).length) ∧
    (∃ pre last, (callbacks_call_one 3 9 cbsMixed rdZero).2.2 = pre ++ [last] ∧
      last.ret = true ∧ ∀ e ∈ pre, e.ret = false) :=
  ⟨(C6_first_match cbsMixed 3 9 rdZero).1,
   (C6_first_match cbsMixed 3 9 rdZero).2.2 rfl⟩

/-- reduction of event_handler on a synced request whose header is not
the resync pattern: the handler proceeds to the operation body with the
decoded operation and 10-bit address. -/
theorem event_handler_request (bk : RegisterBank) (c1 c2 : Nat) (rest : List Nat)
    (hs : bk.sync_state ≠ SYNC_NONE)
    (hne : ¬(c1 % 256 = 255 ∧ c2 % 256 = 255)) :
    event_handler bk (c1 :: c2 :: rest) =
      headerBody ⟨bk.sync_state, bk.callbacks, bk.regdata2, false⟩
        ((c1 % 256) / 4) (((c1 % 256) % 4) * 256 + c2 % 256) rest := by
  simp [event_handler, afterFirst, hs, hne]

/-- C10: a synced request with an undefined operation code (header byte
b1 at least 32, so the 6-bit operation is none of the 8 defined ones)
that is not the resync pattern consumes no payload byte, invokes no
callback, stays synced, and is answered with the single ACK byte. -/
theorem C10_undefined_op_acked (bk : RegisterBank) (c1 c2 : Nat) (rest : List Nat)
    (hs : bk.sync_state ≠ SYNC_NONE) (h1 : 32 ≤ c1) (h2 : c1 < 256)
    (hc2 : c2 < 256) (hne : ¬(c1 = 255 ∧ c2 = 255)) :
    event_handler bk (c1 :: c2 :: rest) =
      ⟨⟨bk.sync_state, bk.callbacks, bk.regdata2, false⟩, rest, [ACK], []⟩ := by
  have hm1 : c1 % 256 = c1 := Nat.mod_eq_of_lt h2
  have hm2 : c2 % 256 = c2 := Nat.mod_eq_of_lt hc2
  have hne' : ¬(c1 % 256 = 255 ∧ c2 % 256 = 255) := by rw [hm1, hm2]; exact hne
  rw [event_handler_request bk c1 c2 rest hs hne', hm1, hm2]
  have h4 : c1 / 4 ≠ ROP_WRITE_8 := by simp [ROP_WRITE_8]; omega
  have h5 : c1 / 4 ≠ ROP_WRITE_16 := by simp [ROP_WRITE_16]; omega
  have h6 : c1 / 4 ≠ ROP_WRITE_32 := by simp [ROP_WRITE_32]; omega
  have h7 : c1 / 4 ≠ ROP_WRITE_MB := by simp [ROP_WRITE_MB]; omega
  have h0 : c1 / 4 ≠ ROP_READ_8 := by simp [ROP_READ_8]; omega
  have hr1 : c1 / 4 ≠ ROP_READ_16 := by simp [ROP_READ_16]; omega
  have hr2 : c1 / 4 ≠ ROP_READ_32 := by simp [ROP_READ_32]; omega
  have hr3 : c1 / 4 ≠ ROP_READ_MB := by simp [ROP_READ_MB]; omega
  simp [headerBody, afterHeader, readLoop, dispatch, h0, hr1, hr2, hr3, h4, h5, h6, h7]

/-- witness for C10 with operation code 8 at address 0. -/
theorem C10_undefined_op_acked_witness :
    event_handler bankNak [32, 0] =
      ⟨⟨bankNak.sync_state, bankNak.callbacks, bankNak.regdata2, false⟩,
       [], [ACK], []⟩ :=
  C10_undefined_op_acked bankNak 32 0 [] (by decide) (by decide) (by decide)
    (by decide) (by decide)

/-- the dispatch phase never leaves the timeout flag set: every branch
ends with the flag cleared by the last successful read. -/
theorem dispatch_timeout_false (bk : RegisterBank) (op addr : Nat)
    (input : List Nat) :
    (dispatch bk op addr input).bank.timeout = false := by
  unfold dispatch readReply
  split_ifs <;> rfl

/-- after a complete header, either the frame completes (flag clear) or
a payload timeout aborts with an empty trace, a full desync burst and
the state reset. -/
theorem afterHeader_timeout_shape (bk : RegisterBank) (op addr cnt base : Nat)
    (input : List Nat) (hs : bk.sync_state ≠ SYNC_NONE) :
    (afterHeader bk op addr cnt base input).bank.timeout = false ∨
    ((afterHeader bk op addr cnt base input).trace = [] ∧
     (afterHeader bk op addr cnt base input).out =
       List.replicate (MAX_MB_SIZE + 5) 0xff ∧
     (afterHeader bk op addr cnt base input).bank.sync_state = SYNC_NONE) := by
  unfold afterHeader
  cases h : (readLoop base cnt input bk.regdata2).1 with
  | false => left; simp [h, dispatch_timeout_false]
  | true => right; simp [h, desync, hs]

/-- the operation body has the same timeout dichotomy. -/
theorem headerBody_timeout_shape (bk : RegisterBank) (op addr : Nat)
    (input : List Nat) (hs : bk.sync_state ≠ SYNC_NONE) :
    (headerBody bk op addr input).bank.timeout = false ∨
    ((headerBody bk op addr input).trace = [] ∧
     (headerBody bk op addr input).out = List.replicate (MAX_MB_SIZE + 5) 0xff ∧
     (headerBody bk op addr input).bank.sync_state = SYNC_NONE) := by
  unfold headerBody
  split_ifs with h4 h5 h6 h7
  · exact afterHeader_timeout_shape bk op addr 1 0 input hs
  · exact afterHeader_timeout_shape bk op addr 2 0 input hs
  · exact afterHeader_timeout_shape bk op addr 4 0 input hs
  · cases input with
    | nil => right; simp [desync, hs]
    | cons l tl =>
      exact afterHeader_timeout_shape
        ⟨bk.sync_state, bk.callbacks, bk.regdata2.set 0 (l % 256), false⟩
        op addr (l % 256) 1 tl hs
  · exact afterHeader_timeout_shape bk op addr 0 0 input hs

/-- the whole synced frame path has the same timeout dichotomy. -/
theorem afterFirst_timeout_shape (bk : RegisterBank) (b1 : Nat)
    (in1 : List Nat) (hs : bk.sync_state ≠ SYNC_NONE) :
    (afterFirst bk b1 in1).bank.timeout = false ∨
    ((afterFirst bk b1 in1).trace = [] ∧
     (afterFirst bk b1 in1).out = List.replicate (MAX_MB_SIZE + 5) 0xff ∧
     (afterFirst bk b1 in1).bank.sync_state = SYNC_NONE) := by
  cases in1 with
  | nil => right; simp [afterFirst, desync, hs]
  | cons c2 in2 =>
    by_cases h : b1 = 255 ∧ c2 % 256 = 255
    · left; simp [afterFirst, h, desync]
    · have heq : afterFirst bk b1 (c2 :: in2) =
          headerBody ⟨bk.sync_state, bk.callbacks, bk.regdata2, false⟩
            (b1 / 4) ((b1 % 4) * 256 + c2 % 256) in2 := by
        simp [afterFirst, h]
      rw [heq]
      exact headerBody_timeout_shape _ _ _ _ hs

/-- C4: if any read times out while a synced invocation of
event_handler is receiving a frame (so the invocation ends with the
timeout flag set), then no callback was invoked, the bytes written are
the 34-byte 0xFF desync burst — in particular no ACK and no NAK — and
the state is reset to Unsynced. -/
theorem C4_timeout_aborts (bk : RegisterBank) (input : List Nat)
    (hs : bk.sync_state ≠ SYNC_NONE) (hin : input ≠ [])
    (ht : (event_handler bk input).bank.timeout = true) :
    (event_handler bk input).trace = [] ∧
    (event_handler bk input).out = List.replicate (MAX_MB_SIZE + 5) 0xff ∧
    (event_handler bk input).bank.sync_state = SYNC_NONE := by
  cases input with
  | nil => exact absurd rfl hin
  | cons c1 in1 =>
    have hev : event_handler bk (c1 :: in1) =
        afterFirst ⟨bk.sync_state, bk.callbacks, bk.regdata2, false⟩ (c1 % 256) in1 := by
      simp [event_handler, hs]
    rw [hev] at ht ⊢
    rcases afterFirst_timeout_shape ⟨bk.sync_state, bk.callbacks, bk.regdata2, false⟩
      (c1 % 256) in1 hs with h | h
    · rw [h] at ht; cases ht
    · exact h

/-- witness for C4: a write-8 header whose second byte never arrives. -/
theorem C4_timeout_aborts_witness :
    (event_handler bankNak [16]).trace = [] ∧
    (event_handler bankNak [16]).out = List.replicate (MAX_MB_SIZE + 5) 0xff ∧
    (event_handler bankNak [16]).bank.sync_state = SYNC_NONE :=
  C4_timeout_aborts bankNak [16] (by decide) (by decide) (by decide)

/-- every callback invocation recorded by the dispatch phase received
the dispatched operation and the 8-bit truncation of the address. -/
theorem dispatch_trace_args (bk : RegisterBank) (op addr : Nat) (input : List Nat) :
    ∀ e ∈ (dispatch bk op addr input).trace,
      e.oper = op ∧ e.addr = addr % 256 := by
  intro e he
  unfold dispatch readReply at he
  split_ifs at he with h0 h1 h2 h3 h4
  · exact callOneAux_args bk.callbacks 0 op (addr % 256) bk.regdata2 e he
  · exact callOneAux_args bk.callbacks 0 op (addr % 256) bk.regdata2 e he
  · exact callOneAux_args bk.callbacks 0 op (addr % 256) bk.regdata2 e he
  · exact callOneAux_args bk.callbacks 0 op (addr % 256) bk.regdata2 e he
  · exact callAllAux_args bk.callbacks 0 op (addr % 256) bk.regdata2 e he
  · simp at he

/-- the same holds for the whole frame phase after the header. -/
theorem afterHeader_trace_args (bk : RegisterBank) (op addr cnt base : Nat)
    (input : List Nat) :
    ∀ e ∈ (afterHeader bk op addr cnt base input).trace,
      e.oper = op ∧ e.addr = addr % 256 := by
  intro e he
  simp only [afterHeader] at he
  split_ifs at he with h
  · simp at he
  · exact dispatch_trace_args _ op addr _ e he

/-- the same holds for the whole operation body. -/
theorem headerBody_trace_args (bk : RegisterBank) (op addr : Nat)
    (input : List Nat) :
    ∀ e ∈ (headerBody bk op addr input).trace,
      e.oper = op ∧ e.addr = addr % 256 := by
  intro e he
  unfold headerBody at he
  split_ifs at he with h4 h5 h6 h7
  · exact afterHeader_trace_args _ op addr 1 0 _ e he
  · exact afterHeader_trace_args _ op addr 2 0 _ e he
  · exact afterHeader_trace_args _ op addr 4 0 _ e he
  · cases input with
    | nil => simp at he
    | cons l tl => exact afterHeader_trace_args _ op addr (l % 256) 1 tl e he
  · exact afterHeader_trace_args _ op addr 0 0 _ e he

/-- counterexample to C3 as stated: on the synced request with header
bytes 0x01 0x00 (read-8, decoded 10-bit address 256) the single
registered callback is invoked, yet it does not receive the address
256: it receives 0 — the address is passed through a uint8_t
parameter. -/
theorem C3_full_address_counterexample :
    (event_handler bankFirstTrue [1, 0]).trace ≠ [] ∧
    ¬ ∀ e ∈ (event_handler bankFirstTrue [1, 0]).trace,
        e.addr = (1 % 4) * 256 + 0 := by
  refine ⟨by decide, fun hall => ?_⟩
  have := hall ⟨0, 0, 0, true⟩ (by decide)
  simp at this

/-- C3 amended: the address passed to every invoked callback is the
decoded 10-bit address reduced modulo 256 (its low 8 bits, i.e. the
second header byte), so it equals the full decoded address exactly when
that address is below 256; the operation argument is passed intact. -/
theorem C3_address_truncated_mod256 (bk : RegisterBank) (c1 c2 : Nat)
    (rest : List Nat) (hs : bk.sync_state ≠ SYNC_NONE) :
    ∀ e ∈ (event_handler bk (c1 :: c2 :: rest)).trace,
      e.oper = (c1 % 256) / 4 ∧
      e.addr = (((c1 % 256) % 4) * 256 + c2 % 256) % 256 := by
  intro e he
  by_cases hne : c1 % 256 = 255 ∧ c2 % 256 = 255
  · simp [event_handler, afterFirst, hs, hne] at he
  · rw [event_handler_request bk c1 c2 rest hs hne] at he
    exact headerBody_trace_args _ _ _ _ e he

/-- witness for the amended C3 at the counterexample input: the invoked
callback received address 0 = 256 mod 256. -/
theorem C3_address_truncated_mod256_witness :
    (⟨0, 0, 0, true⟩ : CallEvent).oper = (1 % 256) / 4 ∧
    (⟨0, 0, 0, true⟩ : CallEvent).addr =
      (((1 % 256) % 4) * 256 + 0 % 256) % 256 :=
  C3_address_truncated_mod256 bankFirstTrue 1 0 [] (by decide)
    ⟨0, 0, 0, true⟩ (by decide)

/-- counterexample to C2 as stated: a synced read-8 request at address
0 whose only registered callback refuses it is answered with the single
byte 15 (0x0F, the NAK constant of remregs.cpp), not with 0x15 = 21 as
the specification states. -/
theorem C2_nak_value_counterexample :
    (event_handler bankNak [0, 0]).out = [15] ∧
    (event_handler bankNak [0, 0]).out ≠ [0x15] := by decide

/-- a read operation reduces straight to the dispatch phase: it has no
input payload bytes to read. -/
theorem headerBody_read (bk : RegisterBank) (op addr : Nat) (input : List Nat)
    (hop : op < 4) :
    headerBody bk op addr input = dispatch bk op addr input := by
  have h4 : op ≠ ROP_WRITE_8 := by simp [ROP_WRITE_8]; omega
  have h5 : op ≠ ROP_WRITE_16 := by simp [ROP_WRITE_16]; omega
  have h6 : op ≠ ROP_WRITE_32 := by simp [ROP_WRITE_32]; omega
  have h7 : op ≠ ROP_WRITE_MB := by simp [ROP_WRITE_MB]; omega
  simp [headerBody, afterHeader, readLoop, h4, h5, h6, h7]

/-- C2 amended: a synced read request (any of the four read operations,
no timeout) that no registered callback claims is answered with exactly
one negative-acknowledgement byte whose value is the NAK constant of
the implementation, decimal 15 (0x0F) — not 0x15 — and no payload
bytes; the remaining input is untouched. -/
theorem C2_nak_on_unclaimed_read (bk : RegisterBank) (c1 c2 : Nat)
    (rest : List Nat) (hs : bk.sync_state ≠ SYNC_NONE)
    (h1 : c1 < 16) (hc2 : c2 < 256)
    (hall : ∀ ocb ∈ bk.callbacks, ∀ cb : Callback, ocb = some cb →
      ∀ (o a : Nat) (x : RegisterData), (cb o a x).1 = false) :
    (event_handler bk (c1 :: c2 :: rest)).out = [NAK] ∧ NAK = 15 ∧
    (event_handler bk (c1 :: c2 :: rest)).rest = rest := by
  have hm1 : c1 % 256 = c1 := by omega
  have hm2 : c2 % 256 = c2 := by omega
  have hne : ¬(c1 % 256 = 255 ∧ c2 % 256 = 255) := by omega
  rw [event_handler_request bk c1 c2 rest hs hne, hm1, hm2,
      headerBody_read _ _ _ _ (by omega)]
  have hfalse : ∀ o a : Nat,
      (callbacks_call_one o a bk.callbacks bk.regdata2).1 = false :=
    fun o a => callOneAux_all_false bk.callbacks 0 o a bk.regdata2 hall
  have hop : c1 / 4 = 0 ∨ c1 / 4 = 1 ∨ c1 / 4 = 2 ∨ c1 / 4 = 3 := by omega
  rcases hop with h | h | h | h <;>
    simp [dispatch, readReply, h, hfalse, ROP_READ_8, ROP_READ_16,
          ROP_READ_32, ROP_READ_MB, NAK]

/-- witness for the amended C2 at the concrete counterexample input. -/
theorem C2_nak_on_unclaimed_read_witness :
    (event_handler bankNak [0, 0]).out = [NAK] ∧ NAK = 15 ∧
    (event_handler bankNak [0, 0]).rest = [] := by
  refine C2_nak_on_unclaimed_read bankNak 0 0 [] (by decide) (by decide)
    (by decide) ?_
  intro ocb hm cb hcb o a x
  simp only [bankNak, List.mem_cons] at hm
  rcases hm with rfl | hm
  · injection hcb with h; rw [← h]; rfl
  · rw [List.eq_of_mem_replicate hm] at hcb; cases hcb

/-- payload reading succeeds and consumes exactly the payload when the
announced count matches its length. -/
theorem readLoop_exact (cnt : Nat) (payload rest : List Nat)
    (rd : RegisterData) (base : Nat) (h : payload.length = cnt) :
    ∃ rd', readLoop base cnt (payload ++ rest) rd = (false, rd', rest) := by
  subst h; exact readLoop_complete payload base rest rd

/-- the dispatch phase of any write operation: every occupied slot is
invoked once in slot order with the dispatched operation and truncated
address, and the reply is the bare ACK byte. -/
theorem dispatch_write (bk : RegisterBank) (op addr : Nat) (input : List Nat)
    (hop : 4 ≤ op ∧ op ≤ 7) :
    (dispatch bk op addr input).out = [ACK] ∧
    ((dispatch bk op addr input).trace).map CallEvent.slot =
      occupiedSlots bk.callbacks ∧
    (∀ e ∈ (dispatch bk op addr input).trace,
      e.oper = op ∧ e.addr = addr % 256) ∧
    (dispatch bk op addr input).rest = input ∧
    (dispatch bk op addr input).bank.sync_state = bk.sync_state := by
  have h0 : op ≠ ROP_READ_8 := by simp [ROP_READ_8]; omega
  have h1 : op ≠ ROP_READ_16 := by simp [ROP_READ_16]; omega
  have h2 : op ≠ ROP_READ_32 := by simp [ROP_READ_32]; omega
  have h3 : op ≠ ROP_READ_MB := by simp [ROP_READ_MB]; omega
  have hw : op = ROP_WRITE_8 ∨ op = ROP_WRITE_16 ∨ op = ROP_WRITE_32 ∨
      op = ROP_WRITE_MB := by
    simp [ROP_WRITE_8, ROP_WRITE_16, ROP_WRITE_32, ROP_WRITE_MB]; omega
  have hd : dispatch bk op addr input =
      ⟨⟨bk.sync_state, bk.callbacks,
        (callbacks_call_all op (addr % 256) bk.callbacks bk.regdata2).1, false⟩,
       input, [ACK],
       (callbacks_call_all op (addr % 256) bk.callbacks bk.regdata2).2⟩ := by
    simp [dispatch, h0, h1, h2, h3, hw, callbacks_call_all]
  rw [hd]
  exact ⟨rfl, callAllAux_slots bk.callbacks 0 op (addr % 256) bk.regdata2,
    fun e he => callAllAux_args bk.callbacks 0 op (addr % 256) bk.regdata2 e he,
    rfl, rfl⟩

/-- C7: for every synced write request (write-8/16/32/multibyte) whose
payload is fully supplied, every occupied callback slot is invoked
exactly once in slot order (the trace maps onto the occupied-slot list),
each with the decoded operation and the truncated address, the return
values are ignored, and the reply is always the bare ACK byte. -/
theorem C7_write_broadcast_ack (bk : RegisterBank) (c1 c2 : Nat)
    (payload rest input : List Nat)
    (hs : bk.sync_state ≠ SYNC_NONE)
    (h1 : 16 ≤ c1) (h2 : c1 < 32) (hc2 : c2 < 256)
    (hl8 : c1 / 4 = ROP_WRITE_8 → payload.length = 1)
    (hl16 : c1 / 4 = ROP_WRITE_16 → payload.length = 2)
    (hl32 : c1 / 4 = ROP_WRITE_32 → payload.length = 4)
    (hlmb : c1 / 4 = ROP_WRITE_MB → payload.length < 256)
    (hinput : input = if c1 / 4 = ROP_WRITE_MB
        then c1 :: c2 :: payload.length :: (payload ++ rest)
        else c1 :: c2 :: (payload ++ rest)) :
    (event_handler bk input).out = [ACK] ∧
    ((event_handler bk input).trace).map CallEvent.slot =
      occupiedSlots bk.callbacks ∧
    (∀ e ∈ (event_handler bk input).trace,
      e.oper = c1 / 4 ∧ e.addr = ((c1 % 4) * 256 + c2) % 256) ∧
    (event_handler bk input).rest = rest ∧
    (event_handler bk input).bank.sync_state = bk.sync_state := by
  have hm1 : c1 % 256 = c1 := by omega
  have hm2 : c2 % 256 = c2 := by omega
  have hne : ¬(c1 % 256 = 255 ∧ c2 % 256 = 255) := by omega
  have hop : c1 / 4 = 4 ∨ c1 / 4 = 5 ∨ c1 / 4 = 6 ∨ c1 / 4 = 7 := by omega
  rcases hop with h | h | h | h
  · have hi : input = c1 :: c2 :: (payload ++ rest) := by
      rw [hinput]; simp [ROP_WRITE_MB, h]
    subst hi
    obtain ⟨rd', hrl⟩ := readLoop_exact 1 payload rest bk.regdata2 0 (hl8 h)
    rw [event_handler_request bk c1 c2 (payload ++ rest) hs hne, hm1, hm2, h]
    have hhb : headerBody ⟨bk.sync_state, bk.callbacks, bk.regdata2, false⟩ 4
        ((c1 % 4) * 256 + c2) (payload ++ rest) =
        dispatch ⟨bk.sync_state, bk.callbacks, rd', false⟩ 4
          ((c1 % 4) * 256 + c2) rest := by
      simp [headerBody, afterHeader, ROP_WRITE_8, hrl]
    rw [hhb]
    exact dispatch_write _ 4 _ rest (by omega)
  · have hi : input = c1 :: c2 :: (payload ++ rest) := by
      rw [hinput]; simp [ROP_WRITE_MB, h]
    subst hi
    obtain ⟨rd', hrl⟩ := readLoop_exact 2 payload rest bk.regdata2 0 (hl16 h)
    rw [event_handler_request bk c1 c2 (payload ++ rest) hs hne, hm1, hm2, h]
    have hhb : headerBody ⟨bk.sync_state, bk.callbacks, bk.regdata2, false⟩ 5
        ((c1 % 4) * 256 + c2) (payload ++ rest) =
        dispatch ⟨bk.sync_state, bk.callbacks, rd', false⟩ 5
          ((c1 % 4) * 256 + c2) rest := by
      simp [headerBody, afterHeader, ROP_WRITE_8, ROP_WRITE_16, hrl]
    rw [hhb]
    exact dispatch_write _ 5 _ rest (by omega)
  · have hi : input = c1 :: c2 :: (payload ++ rest) := by
      rw [hinput]; simp [ROP_WRITE_MB, h]
    subst hi
    obtain ⟨rd', hrl⟩ := readLoop_exact 4 payload rest bk.regdata2 0 (hl32 h)
    rw [event_handler_request bk c1 c2 (payload ++ rest) hs hne, hm1, hm2, h]
    have hhb : headerBody ⟨bk.sync_state, bk.callbacks, bk.regdata2, false⟩ 6
        ((c1 % 4) * 256 + c2) (payload ++ rest) =
        dispatch ⟨bk.sync_state, bk.callbacks, rd', false⟩ 6
          ((c1 % 4) * 256 + c2) rest := by
      simp [headerBody, afterHeader, ROP_WRITE_8, ROP_WRITE_16, ROP_WRITE_32, hrl]
    rw [hhb]
    exact dispatch_write _ 6 _ rest (by omega)
  · have hi : input = c1 :: c2 :: payload.length :: (payload ++ rest) := by
      rw [hinput]; simp [ROP_WRITE_MB, h]
    subst hi
    have hlt : payload.length < 256 := hlmb h
    have hlen : payload.length % 256 = payload.length := by omega
    obtain ⟨rd', hrl⟩ :=
      readLoop_exact payload.length payload rest
        (bk.regdata2.set 0 payload.length) 1 rfl
    rw [event_handler_request bk c1 c2 (payload.length :: (payload ++ rest))
          hs hne, hm1, hm2, h]
    have hhb : headerBody ⟨bk.sync_state, bk.callbacks, bk.regdata2, false⟩ 7
        ((c1 % 4) * 256 + c2) (payload.length :: (payload ++ rest)) =
        dispatch ⟨bk.sync_state, bk.callbacks, rd', false⟩ 7
          ((c1 % 4) * 256 + c2) rest := by
      simp [headerBody, afterHeader, ROP_WRITE_8, ROP_WRITE_16, ROP_WRITE_32,
            ROP_WRITE_MB, hlen, hrl]
    rw [hhb]
    exact dispatch_write _ 7 _ rest (by omega)

/-- witness for C7: a write-8 to address 1 with data byte 5, with one
(refusing) callback registered — it is still invoked and the reply is
the bare ACK. -/
theorem C7_write_broadcast_ack_witness :
    (event_handler bankNak [16, 1, 5]).out = [ACK] ∧
    ((event_handler bankNak [16, 1, 5]).trace).map CallEvent.slot =
      occupiedSlots bankNak.callbacks ∧
    (∀ e ∈ (event_handler bankNak [16, 1, 5]).trace,
      e.oper = 16 / 4 ∧ e.addr = ((16 % 4) * 256 + 1) % 256) ∧
    (event_handler bankNak [16, 1, 5]).rest = [] ∧
    (event_handler bankNak [16, 1, 5]).bank.sync_state = bankNak.sync_state :=
  C7_write_broadcast_ack bankNak 16 1 [5] [] [16, 1, 5] (by decide) (by decide)
    (by decide) (by decide) (fun hq => by decide) (by decide) (by decide)
    (fun hq => by decide) (by decide)

/-- a multibyte-write frame announcing 30 payload bytes, one more than
the 29-byte capacity: header 0x1C 0x00 (write-multibyte, address 0),
length byte 30, then 29 bytes of value 7 and a final byte of value 9. -/
def mbOverflowFrame : List Nat := 28 :: 0 :: 30 :: (List.replicate 29 7 ++ [9])

/-- C1 fails on the code: processing this frame leaves the multibyte
size field at 30 > MAX_MB_SIZE = 29 (the announced length is neither
rejected nor clamped), stores the last payload byte at offset 30 of the
shared buffer — past the 29-byte multibyte data area, i.e. past the
whole 30-byte union — and still acknowledges the request. -/
theorem C1_unchecked_multibyte_length :
    MAX_MB_SIZE <
      (event_handler bankNoCb mbOverflowFrame).bank.regdata2.bytes 0 ∧
    (event_handler bankNoCb mbOverflowFrame).bank.regdata2.bytes
      (MAX_MB_SIZE + 1) = 9 ∧
    (event_handler bankNoCb mbOverflowFrame).out = [ACK] ∧
    (event_handler bankNoCb mbOverflowFrame).bank.sync_state = SYNC_OK := by
  decide
